import Mathlib

/-!
Shallow embedding of the clinic management backend (FastAPI + SQLAlchemy).

The embedding follows the Python source files under `backend/`:
`models.py` (ORM entities and enums), `pgfunc.py` (query helpers),
`main.py` (appointment and prescription endpoints), `auth_router.py`
(registration, login, password reset), and `mental_health_router.py`
(mental-health score endpoint).

Conventions:
- `datetime` values are modelled as seconds since the epoch (`Nat`).
- The database plus the process-local in-memory structures are one
  `ServerState`; HTTP handlers are state-passing functions returning
  `HttpResult`, where `err st code` is an `HTTPException` (or an
  uncaught Python exception turned into a 500 response) observed with
  state `st`.
- Python dynamic attribute access on objects whose attribute set is
  fixed by a class declaration is modelled by explicit `getAttr`-style
  lookups returning `Option`; `none` is an `AttributeError`.
- SQLAlchemy `Numeric` columns and Python float arithmetic are modelled
  with exact rationals (`ℚ`).
-/

namespace Clinic

/-- models.py `Role` enumeration. -/
inductive Role where
  | super_admin
  | clinician_admin
  | doctor
  | nurse
  | receptionist
  | lab_technician
  | pharmacist
  | patient
  deriving DecidableEq, Repr

/-- models.py `AppointmentStatus` enumeration. -/
inductive AppointmentStatus where
  | scheduled
  | in_progress
  | completed
  | cancelled
  deriving DecidableEq, Repr

/-- models.py `AppointmentStatus.value` strings. -/
def AppointmentStatus.value : AppointmentStatus → String
  | .scheduled => "scheduled"
  | .in_progress => "in_progress"
  | .completed => "completed"
  | .cancelled => "cancelled"

/-- models.py `PrescriptionStatus` enumeration. -/
inductive PrescriptionStatus where
  | pending
  | approved
  | fulfilled
  deriving DecidableEq, Repr

/-- The runtime value held by the `status` attribute of a `Prescription`
instance: the ORM column is `Enum(PrescriptionStatus)`, but
`update_prescription` (main.py) writes the raw string from
`PrescriptionUpdateRequest.status : Optional[str]` onto the attribute
via `setattr`, so the attribute can also hold an arbitrary string. -/
inductive StatusAttr where
  | enum (s : PrescriptionStatus)
  | raw (s : String)
  deriving DecidableEq, Repr

/-- models.py `User` (the columns used by the endpoints under study). -/
structure User where
  id : Nat
  full_name : String
  email : String
  password_hash : String
  phone : Option String := none
  gender : Option String := none
  date_of_birth : Option Nat := none
  role : Role
  deriving DecidableEq, Repr

/-- models.py `Appointment` columns. -/
structure Appointment where
  id : Nat
  patient_id : Nat
  clinician_id : Nat
  visit_type : Option String := none
  specialization : Option String := none
  scheduled_at : Nat
  status : AppointmentStatus := .scheduled
  triage_notes : Option String := none
  cost : Option ℚ := some 0
  cancellation_reason : Option String := none
  created_at : Nat
  updated_at : Nat
  deriving DecidableEq, Repr

/-- The value held by a JSON column: either the medication list (each
medication dict kept opaque as a `String`) or a raw string, as written by
`update_prescription` from `PrescriptionUpdateRequest.medications_json :
Optional[str]`. -/
inductive MedsJson where
  | items (meds : List String)
  | raw (s : String)
  deriving DecidableEq, Repr

/-- models.py `Prescription` columns. `appointment_id` carries
`unique=True, nullable=False`; there is no `patient_id` column. -/
structure Prescription where
  id : Nat
  appointment_id : Nat
  issued_by_doctor_id : Option Nat := none
  pharmacy_name : Option String := none
  medications_json : Option MedsJson := none
  status : StatusAttr := .enum .pending
  qr_code_path : Option String := none
  issued_date : Nat
  expiry_date : Option Nat := none
  verified : Bool := false
  created_at : Nat
  updated_at : Nat
  deriving DecidableEq, Repr

/-- models.py `ActivityLog` columns used by activity_logger.py. -/
structure ActivityLog where
  user_id : Nat
  action : String
  device : Option String := none
  location : Option String := none
  ip_address : Option String := none
  timestamp : Nat
  deriving DecidableEq, Repr

/-- models.py `MoodEntry` columns used by mental_health_router.py. -/
structure MoodEntry where
  id : Nat
  user_id : Nat
  date : Nat
  mood : Nat
  energy : Nat
  anxiety : Nat
  notes : String := ""
  deriving DecidableEq, Repr

/-- models.py `GameResult` columns used by mental_health_router.py. -/
structure GameResult where
  id : Nat
  user_id : Nat
  game : String
  score : Nat
  level : Nat
  timestamp : Nat
  deriving DecidableEq, Repr

/-- auth_router.py: one value of the module-level `verification_codes`
dict (the keys code, timestamp, user_id, purpose). -/
structure CodeEntry where
  code : String
  timestamp : Nat
  user_id : Nat
  purpose : String
  deriving DecidableEq, Repr

/-- The observable process state: the database tables touched by the
endpoints under study, plus auth_router.py's module-level (process-local,
in-memory) `verification_codes` mapping keyed by email. -/
structure ServerState where
  users : List User
  appointments : List Appointment
  prescriptions : List Prescription
  activity_logs : List ActivityLog
  mood_entries : List MoodEntry
  game_results : List GameResult
  verification_codes : List (String × CodeEntry)
  deriving DecidableEq, Repr

/-- Outcome of a handler that may mutate state: `ok` is an HTTP 2xx
response, `err` is an `HTTPException` (or an uncaught exception surfaced
as HTTP 500), each with the state as left behind by the handler. -/
inductive HttpResult (σ : Type) (α : Type) where
  | ok (st : σ) (val : α)
  | err (st : σ) (code : Nat)
  deriving DecidableEq, Repr

/-- Whether a handler outcome is an HTTP 2xx response. -/
def HttpResult.isOk : HttpResult σ α → Bool
  | .ok _ _ => true
  | .err _ _ => false

/-- The state a handler outcome leaves behind. -/
def HttpResult.state : HttpResult σ α → σ
  | .ok st _ => st
  | .err st _ => st

/-- Replace the first element satisfying `p` (the row returned by
`query(...).first()`) by `f` of it; all other rows are untouched. -/
def updateFirst (p : α → Bool) (f : α → α) : List α → List α
  | [] => []
  | x :: xs => if p x then f x :: xs else x :: updateFirst p f xs

/-- Association-list lookup, modelling a Python dict read. -/
def alistFind (k : String) : List (String × CodeEntry) → Option CodeEntry
  | [] => none
  | (k', v) :: rest => if k' = k then some v else alistFind k rest

/-- Association-list update, modelling a Python dict assignment. -/
def alistSet (k : String) (v : CodeEntry) : List (String × CodeEntry) → List (String × CodeEntry)
  | [] => [(k, v)]
  | (k', v') :: rest => if k' = k then (k, v) :: rest else (k', v') :: alistSet k v rest

/-- Association-list removal, modelling a Python `del d[k]`. -/
def alistDel (k : String) : List (String × CodeEntry) → List (String × CodeEntry)
  | [] => []
  | (k', v') :: rest => if k' = k then rest else (k', v') :: alistDel k rest

/-! ## Appointments: pgfunc.get_appointments_for_user and the main.py handlers -/

/-- The dict built per row by pgfunc.py `get_appointments_for_user`. -/
structure AppointmentDict where
  id : Nat
  patient_id : Nat
  clinician_id : Nat
  doctor_id : Nat
  doctor_name : String
  clinician_name : String
  patient_name : String
  visit_type : Option String
  scheduled_at : Nat
  status : String
  triage_notes : Option String
  cost : ℚ
  cancellation_reason : Option String
  created_at : Nat
  updated_at : Nat
  deriving DecidableEq, Repr

/-- pgfunc.py: the dict assembled from an appointment row joined with the
clinician's and the patient's `full_name`.  `cost` follows
`float(apt.cost) if apt.cost else 0.0` (both `None` and `0` are falsy). -/
def appointmentDictOf (apt : Appointment) (clinician_full_name patient_full_name : String) :
    AppointmentDict :=
  { id := apt.id
    patient_id := apt.patient_id
    clinician_id := apt.clinician_id
    doctor_id := apt.clinician_id
    doctor_name := clinician_full_name
    clinician_name := clinician_full_name
    patient_name := patient_full_name
    visit_type := apt.visit_type
    scheduled_at := apt.scheduled_at
    status := apt.status.value
    triage_notes := apt.triage_notes
    cost := match apt.cost with
      | some c => if c = 0 then 0 else c
      | none => 0
    cancellation_reason := apt.cancellation_reason
    created_at := apt.created_at
    updated_at := apt.updated_at }

/-- pgfunc.py `get_appointments_for_user`: inner-join appointments with
the clinician and patient users; `Role.PATIENT` rows are filtered to
`patient_id == user_id`; `CLINICIAN_ADMIN` and `SUPER_ADMIN` (and every
other role: no branch applies) see all rows; then the optional status
filter and `order_by(scheduled_at.desc())`. -/
def get_appointments_for_user (st : ServerState) (current_user : User)
    (status_filter : Option AppointmentStatus) : List AppointmentDict :=
  let joined : List (Appointment × String × String) := st.appointments.filterMap (fun apt =>
    match st.users.find? (fun u => u.id = apt.clinician_id),
          st.users.find? (fun u => u.id = apt.patient_id) with
    | some c, some p => some (apt, c.full_name, p.full_name)
    | _, _ => none)
  let roleFiltered : List (Appointment × String × String) :=
    if current_user.role = Role.patient then
      joined.filter (fun r => r.1.patient_id = current_user.id)
    else joined
  let statusFiltered : List (Appointment × String × String) :=
    match status_filter with
    | some s => roleFiltered.filter (fun r => r.1.status = s)
    | none => roleFiltered
  let sorted : List (Appointment × String × String) :=
    statusFiltered.mergeSort (fun a b => decide (b.1.scheduled_at ≤ a.1.scheduled_at))
  sorted.map (fun r => appointmentDictOf r.1 r.2.1 r.2.2)

/-- main.py `get_appointment`: 404 when absent; 403 for a patient who is
not the appointment's patient and for a clinician_admin who is not the
assigned clinician; otherwise the row. -/
def get_appointment (st : ServerState) (current_user : User) (appointment_id : Nat) :
    Except Nat Appointment :=
  match st.appointments.find? (fun a => a.id = appointment_id) with
  | none => Except.error 404
  | some appt =>
    if current_user.role = Role.patient ∧ appt.patient_id ≠ current_user.id then
      Except.error 403
    else if current_user.role = Role.clinician_admin ∧ appt.clinician_id ≠ current_user.id then
      Except.error 403
    else
      Except.ok appt

/-- main.py `cancel_appointment`: 404 / 403 checks, then sets
`status := CANCELLED` and `cancellation_reason := reason` and commits.
The `updated_at` column carries `onupdate=func.now()` (models.py), so it
is refreshed whenever the commit actually emits an UPDATE, i.e. whenever
some column value changed. -/
def cancel_appointment (st : ServerState) (current_user : User) (appointment_id : Nat)
    (cancellation_reason : Option String) (now : Nat) : HttpResult ServerState Appointment :=
  match st.appointments.find? (fun a => a.id = appointment_id) with
  | none => HttpResult.err st 404
  | some appt =>
    if current_user.role = Role.patient ∧ appt.patient_id ≠ current_user.id then
      HttpResult.err st 403
    else if current_user.role = Role.clinician_admin ∧ appt.clinician_id ≠ current_user.id then
      HttpResult.err st 403
    else
      let appt' :=
        if appt.status = AppointmentStatus.cancelled ∧
            appt.cancellation_reason = cancellation_reason then
          appt
        else
          { appt with
            status := AppointmentStatus.cancelled
            cancellation_reason := cancellation_reason
            updated_at := now }
      HttpResult.ok
        { st with appointments := updateFirst (fun a => a.id = appointment_id) (fun _ => appt') st.appointments }
        appt'

/-- pydantic_models.py `AppointmentRescheduleRequest`: its only declared
field is `scheduled_at : Optional[datetime]`. -/
structure AppointmentRescheduleRequest where
  scheduled_at : Option Nat := none
  deriving DecidableEq, Repr

/-- pydantic v2 attribute access on an `AppointmentRescheduleRequest`
instance: only the declared field exists; any other name raises
`AttributeError` (modelled as `none`). -/
def AppointmentRescheduleRequest.getAttr (p : AppointmentRescheduleRequest) (name : String) :
    Option (Option Nat) :=
  if name = "scheduled_at" then some p.scheduled_at else none

/-- main.py `update_appointment` (the PATCH appointments administrative
endpoint): guarded by `require_admin(SUPER_ADMIN, CLINICIAN_ADMIN)` — no
ownership check — and applies the set fields of an
`AppointmentRescheduleRequest` (`scheduled_at` is its only declared
field) to the row. -/
def update_appointment (st : ServerState) (current_user : User) (appointment_id : Nat)
    (payload : AppointmentRescheduleRequest) (now : Nat) : HttpResult ServerState Appointment :=
  if current_user.role ≠ Role.super_admin ∧ current_user.role ≠ Role.clinician_admin then
    HttpResult.err st 403
  else
    match st.appointments.find? (fun a => a.id = appointment_id) with
    | none => HttpResult.err st 404
    | some appt =>
      let appt1 := match payload.scheduled_at with
        | some v => { appt with scheduled_at := v }
        | none => appt
      let appt' := if appt1 = appt then appt1 else { appt1 with updated_at := now }
      HttpResult.ok
        { st with appointments := updateFirst (fun a => a.id = appointment_id) (fun _ => appt') st.appointments }
        appt'

/-- Python attribute access for the integer-valued mapped attributes of
an `Appointment` instance; any other name raises `AttributeError`
(modelled as `none`).  In particular there is no `doctor_id`, `date`,
`time` or `notes` attribute. -/
def Appointment.getAttrNat (a : Appointment) (name : String) : Option Nat :=
  if name = "id" then some a.id
  else if name = "patient_id" then some a.patient_id
  else if name = "clinician_id" then some a.clinician_id
  else if name = "scheduled_at" then some a.scheduled_at
  else if name = "created_at" then some a.created_at
  else if name = "updated_at" then some a.updated_at
  else none

/-- main.py `reschedule_appointment`: 404 / 403 checks (the DOCTOR branch
reads `appt.doctor_id`, which `Appointment` does not define), then
`appt.date = payload.date` reads `payload.date`, which
`AppointmentRescheduleRequest` does not declare: the `AttributeError`
propagates out of the handler (only `SQLAlchemyError` is caught) and
surfaces as HTTP 500, before any assignment or commit. -/
def reschedule_appointment (st : ServerState) (current_user : User) (appointment_id : Nat)
    (payload : AppointmentRescheduleRequest) (now : Nat) : HttpResult ServerState Unit :=
  match st.appointments.find? (fun a => a.id = appointment_id) with
  | none => HttpResult.err st 404
  | some appt =>
    if current_user.role = Role.patient ∧ appt.patient_id ≠ current_user.id then
      HttpResult.err st 403
    else if current_user.role = Role.doctor ∧ (appt.getAttrNat "doctor_id").isNone then
      HttpResult.err st 500
    else if current_user.role = Role.doctor ∧ appt.getAttrNat "doctor_id" ≠ some current_user.id then
      HttpResult.err st 403
    else
      match payload.getAttr "date", payload.getAttr "time" with
      | some _, some _ =>
        -- unreachable: `payload.getAttr "date" = none`.  Were the fields
        -- declared, `appt.date` / `appt.time` / `appt.notes` are still not
        -- mapped columns, so the commit would persist only `updated_at`.
        let appt' := { appt with updated_at := now }
        let rows := updateFirst (fun a => a.id = appointment_id) (fun _ => appt') st.appointments
        HttpResult.ok { st with appointments := rows } ()
      | _, _ => HttpResult.err st 500

/-! ## Prescriptions: models.py constraint and the main.py handlers -/

/-- The attribute names declared on the `Prescription` ORM class in
models.py: the mapped columns plus the `appointment` relationship.
`patient_id` is not among them. -/
def prescriptionMappedAttrs : List String :=
  ["id", "appointment_id", "issued_by_doctor_id", "pharmacy_name", "medications_json",
   "status", "qr_code_path", "issued_date", "expiry_date", "verified",
   "created_at", "updated_at", "appointment"]

/-- Python attribute access for the integer-valued attributes of a
`Prescription` instance; any other name raises `AttributeError`
(modelled as `none`).  In particular there is no `patient_id`. -/
def Prescription.getAttrNat (p : Prescription) (name : String) : Option Nat :=
  if name = "id" then some p.id
  else if name = "appointment_id" then some p.appointment_id
  else none

/-- SQLAlchemy's declarative constructor: `Model(**kwargs)` raises
`TypeError` when some keyword is not an attribute of the class. -/
def declarativeInitOk (mapped kwargs : List String) : Bool :=
  kwargs.all (fun k => mapped.contains k)

/-- The keywords main.py `create_prescription` passes to the
`Prescription(...)` constructor. -/
def prescriptionCreateKwargs : List String :=
  ["appointment_id", "issued_by_doctor_id", "patient_id", "pharmacy_name",
   "medications_json", "status", "issued_date"]

/-- Committing an INSERT into `prescriptions`: models.py declares the
primary key and `appointment_id` with `unique=True`, so the database
rejects (IntegrityError) a row whose `id` or `appointment_id` is already
present. -/
def dbInsertPrescription (st : ServerState) (row : Prescription) : Except Unit ServerState :=
  if st.prescriptions.any (fun q => q.id = row.id ∨ q.appointment_id = row.appointment_id) then
    Except.error ()
  else
    Except.ok { st with prescriptions := st.prescriptions ++ [row] }

/-- pydantic_models.py `PrescriptionCreateRequest`. Medication dicts are
kept opaque as strings. -/
structure PrescriptionCreateRequest where
  appointment_id : Option Nat := none
  patient_id : Nat
  doctor_id : Nat
  medications : List String
  instructions : Option String := none
  expiry_date : Option String := none
  pharmacy_name : Option String := none
  deriving DecidableEq, Repr

/-- main.py `enrich_prescription_medications` rewrites each medication
dict (fills `id`, `name`, `price` from the inventory); on our opaque dict
model it is the identity on the list. -/
def enrich_prescription_medications (meds : List String) : List String := meds

/-- The field values main.py `create_prescription` passes to the
`Prescription(...)` constructor (the construction itself never completes:
see `prescriptionCreateKwargs` and `create_prescription`).  `parseDate`
stands for `datetime.fromisoformat` / `strptime`; an unparsable
`expiry_date` falls back to 30 days from now. -/
def create_prescription_row (payload : PrescriptionCreateRequest) (now fresh_id : Nat)
    (parseDate : String → Option Nat) : Prescription :=
  { id := fresh_id
    appointment_id := payload.appointment_id.getD 0
    issued_by_doctor_id := some payload.doctor_id
    pharmacy_name := some (payload.pharmacy_name.getD "Main Pharmacy")
    medications_json := some (MedsJson.items (enrich_prescription_medications payload.medications))
    status := StatusAttr.enum PrescriptionStatus.pending
    issued_date := now
    expiry_date := match payload.expiry_date with
      | none => none
      | some s => some ((parseDate s).getD (now + 30 * 86400))
    created_at := now
    updated_at := now }

/-- main.py `create_prescription`: 403 unless the caller is a doctor,
nurse, super_admin or clinician_admin; then the handler calls
`Prescription(appointment_id=..., issued_by_doctor_id=..., patient_id=...,
...)`.  Since `patient_id` is not an attribute of `Prescription`, the
declarative constructor raises `TypeError`, which the blanket
`except Exception` turns into a rollback and HTTP 500: nothing is ever
persisted. -/
def create_prescription (st : ServerState) (current_user : User)
    (payload : PrescriptionCreateRequest) (now fresh_id : Nat)
    (parseDate : String → Option Nat) : HttpResult ServerState Prescription :=
  if current_user.role ∉ [Role.doctor, Role.nurse, Role.super_admin, Role.clinician_admin] then
    HttpResult.err st 403
  else if declarativeInitOk prescriptionMappedAttrs prescriptionCreateKwargs then
    -- unreachable: `"patient_id" ∈ prescriptionCreateKwargs` but not in
    -- `prescriptionMappedAttrs`.  Were the constructor to succeed, the row
    -- would be inserted subject to the unique constraint:
    let row := create_prescription_row payload now fresh_id parseDate
    match dbInsertPrescription st row with
    | Except.ok st' => HttpResult.ok st' row
    | Except.error _ => HttpResult.err st 500
  else
    HttpResult.err st 500

/-- pydantic_models.py `PrescriptionResponse` as assembled by
`prescription_to_response` (main.py). -/
structure PrescriptionResponse where
  id : Nat
  appointment_id : Option Nat := none
  patient_id : Option Nat := none
  issued_by_doctor_id : Option Nat := none
  doctor_name : Option String := none
  pharmacy_name : Option String := none
  medications_json : List String := []
  status : Option String := none
  qr_code_path : Option String := none
  issued_date : Nat
  expiry_date : Option Nat := none
  created_at : Nat
  updated_at : Nat
  deriving DecidableEq, Repr

/-- Python `str()` of the runtime `status` attribute value. -/
def StatusAttr.str : StatusAttr → String
  | .enum .pending => "PrescriptionStatus.PENDING"
  | .enum .approved => "PrescriptionStatus.APPROVED"
  | .enum .fulfilled => "PrescriptionStatus.FULFILLED"
  | .raw s => s

/-- main.py `prescription_to_response`: builds the response dict.  It
reads `prescription.patient_id`, which `Prescription` does not define, so
the function raises `AttributeError` (modelled as `none`) on every input.
(`doctor_name` uses `getattr(..., None)` and so defaults to `None`
without raising.) -/
def prescription_to_response (p : Prescription) : Option PrescriptionResponse :=
  match p.getAttrNat "patient_id" with
  | none => none
  | some pid =>
    some { id := p.id
           appointment_id := some p.appointment_id
           patient_id := some pid
           issued_by_doctor_id := p.issued_by_doctor_id
           doctor_name := none
           pharmacy_name := p.pharmacy_name
           medications_json := match p.medications_json with
             | some (MedsJson.items ms) => enrich_prescription_medications ms
             | some (MedsJson.raw s) => [s]
             | none => []
           status := some p.status.str
           qr_code_path := p.qr_code_path
           issued_date := p.issued_date
           expiry_date := p.expiry_date
           created_at := p.created_at
           updated_at := p.updated_at }

/-- main.py `list_prescriptions`: builds a query over
`Prescription` outer-joined with `Appointment`.  For a PATIENT the filter
expression references the class attribute `Prescription.patient_id`,
which does not exist: the `AttributeError` is uncaught and surfaces as
HTTP 500 before the query runs.  For a CLINICIAN_ADMIN the filter keeps
rows whose appointment's clinician is the caller or which the caller
issued; every returned row then passes through
`prescription_to_response`. -/
def list_prescriptions (st : ServerState) (current_user : User)
    (status_filter : Option PrescriptionStatus) : Except Nat (List PrescriptionResponse) :=
  if current_user.role = Role.patient then
    -- `Prescription.patient_id` : AttributeError → HTTP 500
    Except.error 500
  else
    let rows : List Prescription :=
      if current_user.role = Role.clinician_admin then
        st.prescriptions.filter (fun p =>
          (match st.appointments.find? (fun a => a.id = p.appointment_id) with
            | some apt => apt.clinician_id == current_user.id
            | none => false) ||
          p.issued_by_doctor_id == some current_user.id)
      else
        st.prescriptions
    let rows : List Prescription :=
      match status_filter with
      | some s => rows.filter (fun p => p.status = StatusAttr.enum s)
      | none => rows
    match rows.mapM prescription_to_response with
    | none => Except.error 500
    | some resps => Except.ok resps

/-- main.py `get_prescription`: 404 when absent; the PATIENT permission
branches read `prescription.patient_id` (no such attribute) when the
appointment's patient is not the caller or there is no appointment; a
CLINICIAN_ADMIN who is not the appointment's clinician gets 403; every
path that reaches the response goes through `prescription_to_response`,
which itself reads `prescription.patient_id`. -/
def get_prescription (st : ServerState) (current_user : User) (prescription_id : Nat) :
    Except Nat PrescriptionResponse :=
  match st.prescriptions.find? (fun p => p.id = prescription_id) with
  | none => Except.error 404
  | some p =>
    let appointment := st.appointments.find? (fun a => a.id = p.appointment_id)
    let toResp : Except Nat PrescriptionResponse :=
      match prescription_to_response p with
      | none => Except.error 500
      | some r => Except.ok r
    if current_user.role = Role.patient then
      match appointment with
      | some apt =>
        if apt.patient_id ≠ current_user.id then
          match p.getAttrNat "patient_id" with
          | none => Except.error 500
          | some pid => if pid ≠ current_user.id then Except.error 403 else toResp
        else toResp
      | none =>
        match p.getAttrNat "patient_id" with
        | none => Except.error 500
        | some pid => if pid ≠ current_user.id then Except.error 403 else toResp
    else
      let clinicianMismatch : Bool :=
        match appointment with
        | some apt => apt.clinician_id != current_user.id
        | none => false
      if current_user.role = Role.clinician_admin ∧ clinicianMismatch then
        Except.error 403
      else toResp

/-- pydantic_models.py `PrescriptionUpdateRequest`: all fields optional,
`status` is a plain `Optional[str]`. -/
structure PrescriptionUpdateRequest where
  pharmacy_name : Option String := none
  medications_json : Option String := none
  status : Option String := none
  qr_code_path : Option String := none
  deriving DecidableEq, Repr

/-- main.py `update_prescription`: guarded by
`require_admin(SUPER_ADMIN, CLINICIAN_ADMIN)`; 404 when absent; then
`setattr` of every set payload field onto the row — including any
`status` string, with no inspection of the row's current status — and a
commit (`updated_at` is refreshed via `onupdate` when something
changed). -/
def update_prescription (st : ServerState) (current_user : User) (prescription_id : Nat)
    (payload : PrescriptionUpdateRequest) (now : Nat) : HttpResult ServerState Prescription :=
  if current_user.role ≠ Role.super_admin ∧ current_user.role ≠ Role.clinician_admin then
    HttpResult.err st 403
  else
    match st.prescriptions.find? (fun p => p.id = prescription_id) with
    | none => HttpResult.err st 404
    | some p =>
      let p1 := match payload.pharmacy_name with
        | some v => { p with pharmacy_name := some v }
        | none => p
      let p2 := match payload.medications_json with
        | some v => { p1 with medications_json := some (MedsJson.raw v) }
        | none => p1
      let p3 := match payload.status with
        | some v => { p2 with status := StatusAttr.raw v }
        | none => p2
      let p4 := match payload.qr_code_path with
        | some v => { p3 with qr_code_path := some v }
        | none => p3
      let p' := if p4 = p then p4 else { p4 with updated_at := now }
      HttpResult.ok
        { st with prescriptions := updateFirst (fun q => q.id = prescription_id) (fun _ => p') st.prescriptions }
        p'

/-! ## Auth: registration, login, password reset (auth_router.py)

The bcrypt primitive lives in the passlib library, outside this
repository; following the spec ("password hashing (bcrypt-equivalent)"),
it is abstracted as a pair of parameters `hashFn` / `verifyFn`
standing for `bcrypt_context.hash` and `bcrypt_context.verify`.
Likewise `parseIso` stands for `datetime.fromisoformat`. -/

/-- models.py `Role.value` strings. -/
def Role.value : Role → String
  | .super_admin => "super_admin"
  | .clinician_admin => "clinician_admin"
  | .doctor => "doctor"
  | .nurse => "nurse"
  | .receptionist => "receptionist"
  | .lab_technician => "lab_technician"
  | .pharmacist => "pharmacist"
  | .patient => "patient"

/-- pydantic_models.py `CreateUserRequest`. -/
structure CreateUserRequest where
  full_name : String
  email : String
  password : String
  phone : Option String := none
  gender : Option String := none
  date_of_birth : Option String := none
  deriving DecidableEq, Repr

/-- auth_router.py `register_customer`: 400 when the email already
exists; 400 when `date_of_birth` is present but unparsable; otherwise
inserts a `Role.PATIENT` user whose `password_hash` is
`bcrypt_context.hash(password)`. -/
def register_customer (hashFn : String → String) (parseIso : String → Option Nat)
    (st : ServerState) (payload : CreateUserRequest) (fresh_id : Nat) :
    HttpResult ServerState User :=
  if (st.users.find? (fun u => u.email = payload.email)).isSome then
    HttpResult.err st 400
  else
    let mkUser : Option Nat → User := fun dob =>
      { id := fresh_id
        full_name := payload.full_name
        email := payload.email
        password_hash := hashFn payload.password
        phone := payload.phone
        gender := payload.gender
        date_of_birth := dob
        role := Role.patient }
    match payload.date_of_birth with
    | some s =>
      match parseIso s with
      | none => HttpResult.err st 400
      | some dob =>
        let u := mkUser (some dob)
        HttpResult.ok { st with users := st.users ++ [u] } u
    | none =>
      let u := mkUser none
      HttpResult.ok { st with users := st.users ++ [u] } u

/-- auth_router.py `authenticate_user`: 404 for an unknown email, 401
when `bcrypt_context.verify(password, user.password_hash)` is false. -/
def authenticate_user (verifyFn : String → String → Bool) (st : ServerState)
    (email password : String) : Except Nat User :=
  match st.users.find? (fun u => u.email = email) with
  | none => Except.error 404
  | some user =>
    if ¬ verifyFn password user.password_hash then Except.error 401
    else Except.ok user

/-- The JWT claims encoded by auth_router.py `create_access_token` (the
HMAC serialization by `jwt.encode` is kept abstract: the token is its
claim set). -/
structure AccessToken where
  sub : String
  id : Nat
  role : String
  exp : Nat
  deriving DecidableEq, Repr

/-- auth_router.py `create_access_token`. -/
def create_access_token (full_name : String) (user_id : Nat) (role : String)
    (expires_delta now : Nat) : AccessToken :=
  { sub := full_name, id := user_id, role := role, exp := now + expires_delta }

/-- pydantic_models.py `Token` response. -/
structure Token where
  access_token : AccessToken
  token_type : String
  expires_in : Nat
  deriving DecidableEq, Repr

/-- auth_router.py `login`: authenticate, then issue a token with
`token_expires = timedelta(hours=1)` (3600 seconds) and append a
`"Login"` activity-log row. -/
def login (verifyFn : String → String → Bool) (st : ServerState)
    (email password : String) (now : Nat) : HttpResult ServerState Token :=
  match authenticate_user verifyFn st email password with
  | Except.error c => HttpResult.err st c
  | Except.ok user =>
    let token_expires := 3600
    let token := create_access_token user.full_name user.id user.role.value token_expires now
    let log : ActivityLog :=
      { user_id := user.id, action := "Login", device := some "Web Application", timestamp := now }
    HttpResult.ok { st with activity_logs := st.activity_logs ++ [log] }
      { access_token := token, token_type := "bearer", expires_in := token_expires }

/-- auth_router.py `generate_verification_code` with the default
`length=6`: six characters drawn from `string.digits`; the random
choices are an oracle parameter. -/
def generate_verification_code (digits : Fin 6 → Fin 10) : String :=
  String.mk ((List.finRange 6).map (fun i => Char.ofNat (48 + (digits i).val)))

/-- auth_router.py `forgot_password`: 404 for an unknown email; otherwise
stores a fresh 6-digit code with the current timestamp in the
process-local `verification_codes` mapping under the email.  No database
table is touched. -/
def forgot_password (st : ServerState) (email : String) (digits : Fin 6 → Fin 10)
    (now : Nat) : HttpResult ServerState Unit :=
  match st.users.find? (fun u => u.email = email) with
  | none => HttpResult.err st 404
  | some user =>
    let entry : CodeEntry :=
      { code := generate_verification_code digits
        timestamp := now
        user_id := user.id
        purpose := "password_reset" }
    HttpResult.ok { st with verification_codes := alistSet email entry st.verification_codes } ()

/-- auth_router.py `reset_password_with_code`: 400 when no code is stored
for the email or the stored code differs; 400 (and the stored entry is
dropped) when the code is older than one hour
(`utcnow() - timestamp > timedelta(hours=1)`); 404 when the stored
user_id no longer resolves; otherwise re-hash the new password onto the
user, delete the code from the mapping, and append a
`"Password Reset"` activity-log row. -/
def reset_password_with_code (hashFn : String → String) (st : ServerState)
    (email code new_password : String) (now : Nat) : HttpResult ServerState Unit :=
  match alistFind email st.verification_codes with
  | none => HttpResult.err st 400
  | some stored =>
    if stored.code ≠ code then HttpResult.err st 400
    else if 3600 < now - stored.timestamp then
      HttpResult.err { st with verification_codes := alistDel email st.verification_codes } 400
    else
      match st.users.find? (fun u => u.id = stored.user_id) with
      | none => HttpResult.err st 404
      | some user =>
        let user' := { user with password_hash := hashFn new_password }
        let log : ActivityLog :=
          { user_id := user.id, action := "Password Reset"
            device := some "Web Application", timestamp := now }
        HttpResult.ok
          { st with
            users := updateFirst (fun u => u.id = stored.user_id) (fun _ => user') st.users
            verification_codes := alistDel email st.verification_codes
            activity_logs := st.activity_logs ++ [log] } ()

/-! ## Mental-health score (mental_health_router.py)

Python float arithmetic is modelled with exact rationals; the decimal
literals `0.3`, `0.2`, `5`, `10`, `3` of the source appear as the
rationals they denote. -/

/-- Average of a list of integer scores, as in
`sum(...) / len(...)` (true division). -/
def listAvg (l : List Nat) : ℚ :=
  ((l.map (fun n => (n : ℚ))).sum) / (l.length : ℚ)

/-- Python's built-in `round` to the nearest integer: ties go to the
even integer. -/
def pythonRound (q : ℚ) : ℤ :=
  if Int.fract q < 1/2 then ⌊q⌋
  else if (1 : ℚ)/2 < Int.fract q then ⌊q⌋ + 1
  else if ⌊q⌋ % 2 = 0 then ⌊q⌋ else ⌊q⌋ + 1

/-- The four unrounded sub-scores of `get_mental_health_score`. -/
structure RawScores where
  focus : ℚ
  stress : ℚ
  mood : ℚ
  anxiety : ℚ
  deriving DecidableEq, Repr

/-- The score arithmetic of mental_health_router.py
`get_mental_health_score`, applied to the retrieved mood entries and game
results: every sub-score starts at 50; each nonempty game-type bucket
adds its weighted average onto `focus` (capped at 100 at each step) and
the focus games also lower `stress` (floored at 0); nonempty mood entries
overwrite `mood` and `anxiety` and adjust `stress` and `focus`. -/
def calculate_scores (mood_entries : List MoodEntry) (game_results : List GameResult) :
    RawScores :=
  let memory_results := game_results.filter (fun r => r.game = "memory")
  let reaction_results := game_results.filter (fun r => r.game = "reaction")
  let color_results := game_results.filter (fun r => r.game = "color")
  let focus_results := game_results.filter (fun r => r.game = "focus")
  let focus_score : ℚ := 50
  let stress_score : ℚ := 50
  let mood_score : ℚ := 50
  let anxiety_score : ℚ := 50
  let focus_score :=
    if memory_results ≠ [] then
      min 100 (focus_score + listAvg (memory_results.map (fun r => r.score)) * (3/10))
    else focus_score
  let focus_score :=
    if reaction_results ≠ [] then
      min 100 (focus_score + listAvg (reaction_results.map (fun r => r.score)) * (2/10))
    else focus_score
  let focus_score :=
    if color_results ≠ [] then
      min 100 (focus_score + listAvg (color_results.map (fun r => r.score)) * (2/10))
    else focus_score
  let avg_focus := listAvg (focus_results.map (fun r => r.score))
  let focus_score :=
    if focus_results ≠ [] then min 100 (focus_score + avg_focus * (3/10)) else focus_score
  let stress_score :=
    if focus_results ≠ [] then max 0 (stress_score - avg_focus * (2/10)) else stress_score
  let avg_mood := listAvg (mood_entries.map (fun m => m.mood))
  let avg_anxiety := listAvg (mood_entries.map (fun m => m.anxiety))
  let avg_energy := listAvg (mood_entries.map (fun m => m.energy))
  let mood_score := if mood_entries ≠ [] then avg_mood * 10 else mood_score
  let anxiety_score := if mood_entries ≠ [] then 100 - avg_anxiety * 10 else anxiety_score
  let stress_score :=
    if mood_entries ≠ [] then max 0 (stress_score - avg_anxiety * 5) else stress_score
  let focus_score :=
    if mood_entries ≠ [] then min 100 (focus_score + avg_energy * 3) else focus_score
  { focus := focus_score, stress := stress_score, mood := mood_score, anxiety := anxiety_score }

/-- The response of mental_health_router.py `get_mental_health_score`. -/
structure MentalHealthScore where
  overall : ℤ
  stress : ℤ
  anxiety : ℤ
  focus : ℤ
  mood : ℤ
  recommendations : List String
  last_updated : Nat
  deriving DecidableEq, Repr

/-- mental_health_router.py `get_mental_health_score`: retrieve the
caller's most recent 30 mood entries and 50 game results, run
`calculate_scores`, and round; `overall` is the rounded mean of the four
unrounded sub-scores. -/
def get_mental_health_score (st : ServerState) (current_user : User) (now : Nat) :
    MentalHealthScore :=
  let mood_entries : List MoodEntry :=
    (((st.mood_entries.filter (fun m => m.user_id = current_user.id)).mergeSort
      (fun a b => decide (b.date ≤ a.date))).take 30)
  let game_results : List GameResult :=
    (((st.game_results.filter (fun g => g.user_id = current_user.id)).mergeSort
      (fun a b => decide (b.timestamp ≤ a.timestamp))).take 50)
  let s := calculate_scores mood_entries game_results
  let overall := pythonRound ((s.focus + s.stress + s.mood + s.anxiety) / 4)
  let recommendations :=
    (if s.focus < 60 then ["Try more memory and reaction games to improve focus"] else []) ++
    (if s.stress < 60 then ["Practice breathing exercises and meditation"] else []) ++
    (if s.mood < 60 then
      ["Consider activities that bring you joy and track your mood regularly"] else []) ++
    (if s.anxiety < 60 then
      ["Try relaxation techniques and consider talking to a mental health professional"]
     else [])
  { overall := overall
    stress := pythonRound s.stress
    anxiety := pythonRound s.anxiety
    focus := pythonRound s.focus
    mood := pythonRound s.mood
    recommendations := recommendations
    last_updated := now }

/-- The invariant of models.py's `unique=True` on
`prescriptions.appointment_id`: no two distinct prescription rows share
an appointment. -/
def atMostOnePrescriptionPerAppointment (st : ServerState) : Prop :=
  ∀ p ∈ st.prescriptions, ∀ q ∈ st.prescriptions,
    p.appointment_id = q.appointment_id → p = q

/-! ## Concrete states used to instantiate the theorems -/

/-- A patient-role user with id 1. -/
def uPat : User :=
  { id := 1, full_name := "Pat One", email := "pat@clinic.test", password_hash := "h1"
    role := Role.patient }

/-- A clinician_admin-role user with id 1. -/
def uCA : User :=
  { id := 1, full_name := "Admin One", email := "ca@clinic.test", password_hash := "h2"
    role := Role.clinician_admin }

/-- An appointment of patient 2 with clinician 3 (so neither `uPat` nor
`uCA` own it). -/
def apptOther : Appointment :=
  { id := 5, patient_id := 2, clinician_id := 3, scheduled_at := 100
    cost := none, created_at := 10, updated_at := 10 }

/-- The patient-role user with id 2 who owns `apptOther`. -/
def uPat2 : User :=
  { id := 2, full_name := "Pat Two", email := "p2@clinic.test", password_hash := "h3"
    role := Role.patient }

/-- The clinician_admin-role user with id 3 assigned to `apptOther`. -/
def uStaff3 : User :=
  { id := 3, full_name := "Doc Three", email := "d3@clinic.test", password_hash := "h4"
    role := Role.clinician_admin }

/-- A small server state: users 1 (patient), 2 (patient), 3
(clinician_admin), and the single appointment `apptOther`. -/
def stBase : ServerState :=
  { users := [uPat, uPat2, uStaff3]
    appointments := [apptOther]
    prescriptions := []
    activity_logs := []
    mood_entries := []
    game_results := []
    verification_codes := [] }

/-- A prescription for appointment 5. -/
def presc1 : Prescription :=
  { id := 1, appointment_id := 5, issued_date := 10, created_at := 10, updated_at := 10 }

/-- A second prescription row aimed at the same appointment 5. -/
def presc2 : Prescription :=
  { id := 2, appointment_id := 5, issued_date := 20, created_at := 20, updated_at := 20 }

/-- `stBase` plus the prescription `presc1`. -/
def stPresc : ServerState := { stBase with prescriptions := [presc1] }

/-- A doctor-role user with id 4. -/
def uDoc : User :=
  { id := 4, full_name := "Doc Four", email := "d4@clinic.test", password_hash := "h5"
    role := Role.doctor }

/-- `stBase` plus a stored password-reset code for `uPat`'s email,
generated at time 0. -/
def stCode : ServerState :=
  { stBase with verification_codes :=
      [("pat@clinic.test",
        { code := "123456", timestamp := 0, user_id := 1, purpose := "password_reset" })] }

/-- A concrete mood-entry list for instantiating the score theorems. -/
def moodsW : List MoodEntry :=
  [{ id := 1, user_id := 1, date := 3, mood := 8, energy := 6, anxiety := 2 }]

/-- A concrete game-result list with one result per game type. -/
def gamesW : List GameResult :=
  [{ id := 1, user_id := 1, game := "memory", score := 80, level := 1, timestamp := 1 },
   { id := 2, user_id := 1, game := "reaction", score := 60, level := 2, timestamp := 2 },
   { id := 3, user_id := 1, game := "color", score := 40, level := 1, timestamp := 3 },
   { id := 4, user_id := 1, game := "focus", score := 100, level := 3, timestamp := 4 }]

/-! ## C1 -/

/-- C1: a patient-role user only reaches their own appointments: the
listing contains only rows with their `patient_id`, and viewing,
cancelling or rescheduling a foreign appointment yields HTTP 403 with
the state unchanged. -/
theorem patient_appointment_isolation
    (st : ServerState) (u : User) (hrole : u.role = Role.patient)
    (sf : Option AppointmentStatus) (aid : Nat) (appt : Appointment)
    (hfind : st.appointments.find? (fun a => a.id = aid) = some appt)
    (hneq : appt.patient_id ≠ u.id)
    (reason : Option String) (payload : AppointmentRescheduleRequest) (now : Nat) :
    (∀ d ∈ get_appointments_for_user st u sf, d.patient_id = u.id) ∧
    get_appointment st u aid = Except.error 403 ∧
    cancel_appointment st u aid reason now = HttpResult.err st 403 ∧
    reschedule_appointment st u aid payload now = HttpResult.err st 403 := by
  refine ⟨?_, ?_, ?_, ?_⟩
  · intro d hd
    unfold get_appointments_for_user at hd
    rw [hrole] at hd
    simp only [if_pos rfl, List.mem_map, List.mem_mergeSort] at hd
    obtain ⟨r, hr, rfl⟩ := hd
    have hrj : r.1.patient_id = u.id := by
      cases sf with
      | none => exact of_decide_eq_true (List.mem_filter.mp hr).2
      | some s => exact of_decide_eq_true (List.mem_filter.mp (List.mem_filter.mp hr).1).2
    simpa [appointmentDictOf] using hrj
  · simp [get_appointment, hfind, hrole, hneq]
  · simp [cancel_appointment, hfind, hrole, hneq]
  · simp [reschedule_appointment, hfind, hrole, hneq]

/-- Witness for C1 at the concrete state `stBase`: patient 1 is refused
on the foreign appointment 5. -/
theorem patient_appointment_isolation_witness :
    get_appointment stBase uPat 5 = Except.error 403 ∧
    cancel_appointment stBase uPat 5 (some "busy") 99 = HttpResult.err stBase 403 ∧
    reschedule_appointment stBase uPat 5 {} 99 = HttpResult.err stBase 403 :=
  (patient_appointment_isolation stBase uPat rfl none 5 apptOther rfl (by decide)
    (some "busy") {} 99).2

/-! ## C2 -/

/-- C2 counterexample: the claim says a clinician_admin's appointment
access is granted exactly when they are the assigned clinician (with the
exception only of administrative endpoints), yet the appointment list
endpoint — which is not admin-guarded — hands the clinician_admin `uCA`
(id 1) the appointment `apptOther` assigned to clinician 3. -/
theorem clinician_admin_list_leaks_unassigned :
    appointmentDictOf apptOther "Doc Three" "Pat Two" ∈
      get_appointments_for_user stBase uCA none ∧
    (appointmentDictOf apptOther "Doc Three" "Pat Two").clinician_id ≠ uCA.id := by
  constructor
  · unfold get_appointments_for_user
    simp only [List.mem_map, List.mem_mergeSort]
    refine ⟨(apptOther, "Doc Three", "Pat Two"), ?_, rfl⟩
    decide
  · decide

/-- C2 as amended: for a clinician_admin, viewing and cancelling a
single appointment are granted exactly when they are the assigned
clinician (a foreign one yields 403 with the state unchanged); the
administrative update endpoint bypasses the ownership check; but the
(non-administrative) list endpoint returns every appointment to a
clinician_admin, owned or not. -/
theorem clinician_admin_access_rule
    (st : ServerState) (u : User) (hrole : u.role = Role.clinician_admin)
    (aid : Nat) (appt : Appointment)
    (hfind : st.appointments.find? (fun a => a.id = aid) = some appt)
    (reason : Option String) (payload : AppointmentRescheduleRequest) (now : Nat) :
    (get_appointment st u aid = Except.ok appt ↔ appt.clinician_id = u.id) ∧
    (appt.clinician_id ≠ u.id → get_appointment st u aid = Except.error 403) ∧
    (appt.clinician_id ≠ u.id → cancel_appointment st u aid reason now = HttpResult.err st 403) ∧
    ((cancel_appointment st u aid reason now).isOk = true ↔ appt.clinician_id = u.id) ∧
    (update_appointment st u aid payload now).isOk = true ∧
    (∀ apt ∈ st.appointments, ∀ c p : User,
      st.users.find? (fun v => v.id = apt.clinician_id) = some c →
      st.users.find? (fun v => v.id = apt.patient_id) = some p →
      appointmentDictOf apt c.full_name p.full_name ∈ get_appointments_for_user st u none) := by
  refine ⟨?_, ?_, ?_, ?_, ?_, ?_⟩
  · by_cases h : appt.clinician_id = u.id
    · simp [get_appointment, hfind, hrole, h]
    · simp [get_appointment, hfind, hrole, h]
  · intro h
    simp [get_appointment, hfind, hrole, h]
  · intro h
    simp [cancel_appointment, hfind, hrole, h]
  · by_cases h : appt.clinician_id = u.id
    · simp [cancel_appointment, hfind, hrole, h, HttpResult.isOk]
    · simp [cancel_appointment, hfind, hrole, h, HttpResult.isOk]
  · simp [update_appointment, hfind, hrole, HttpResult.isOk]
  · intro apt hapt c p hc hp
    unfold get_appointments_for_user
    rw [hrole]
    simp only [List.mem_map, List.mem_mergeSort]
    refine ⟨(apt, c.full_name, p.full_name), ?_, rfl⟩
    simp only [if_neg (by decide : ¬ (Role.clinician_admin = Role.patient))]
    exact List.mem_filterMap.mpr ⟨apt, hapt, by rw [hc, hp]⟩

/-- Witness for the amended C2 at the concrete state `stBase` (the
appointment is assigned to clinician 3, not to `uCA`). -/
theorem clinician_admin_access_rule_witness :
    get_appointment stBase uCA 5 = Except.error 403 ∧
    cancel_appointment stBase uCA 5 (some "late") 99 = HttpResult.err stBase 403 ∧
    (cancel_appointment stBase uStaff3 5 (some "go") 99).isOk = true ∧
    (update_appointment stBase uCA 5 { scheduled_at := some 200 } 99).isOk = true ∧
    appointmentDictOf apptOther uStaff3.full_name uPat2.full_name ∈
      get_appointments_for_user stBase uCA none := by
  have h := clinician_admin_access_rule stBase uCA rfl 5 apptOther rfl (some "late")
    { scheduled_at := some 200 } 99
  have h3 := clinician_admin_access_rule stBase uStaff3 rfl 5 apptOther rfl (some "go")
    { scheduled_at := some 200 } 99
  exact ⟨h.2.1 (by decide), h.2.2.1 (by decide), h3.2.2.2.1.mpr rfl, h.2.2.2.2.1,
    h.2.2.2.2.2 apptOther (by decide) uStaff3 uPat2 rfl rfl⟩

/-! ## C3 -/

/-- The keyword set of the `Prescription(...)` call in
`create_prescription` is not accepted by the declarative constructor:
`patient_id` is not an attribute of the class. -/
theorem create_kwargs_rejected :
    declarativeInitOk prescriptionMappedAttrs prescriptionCreateKwargs = false := by
  decide

/-- C3: `unique=True` on `appointment_id` keeps at most one prescription
per appointment: an insert for an appointment that already has one is
rejected, a successful insert preserves the invariant, and the creation
endpoint never changes the prescriptions table at all (so it trivially
maintains the invariant). -/
theorem prescription_unique_per_appointment
    (st : ServerState) (row q : Prescription)
    (hinv : atMostOnePrescriptionPerAppointment st) :
    (∀ st', dbInsertPrescription st row = Except.ok st' →
      atMostOnePrescriptionPerAppointment st') ∧
    (q ∈ st.prescriptions → q.appointment_id = row.appointment_id →
      dbInsertPrescription st row = Except.error ()) ∧
    (∀ u payload now fid parseDate,
      (create_prescription st u payload now fid parseDate).state.prescriptions =
        st.prescriptions) := by
  refine ⟨?_, ?_, ?_⟩
  · intro st' hok
    unfold dbInsertPrescription at hok
    split at hok
    · exact absurd hok (by simp)
    · rename_i hany
      simp only [Except.ok.injEq] at hok
      subst hok
      simp only [List.any_eq_true, decide_eq_true_eq, not_exists, not_or, not_and] at hany
      intro p hp q' hq' hpq
      simp only [List.mem_append, List.mem_singleton] at hp hq'
      rcases hp with hp | hp <;> rcases hq' with hq' | hq'
      · exact hinv p hp q' hq' hpq
      · subst hq'
        exact absurd hpq (hany p hp).2
      · subst hp
        exact absurd hpq.symm (hany q' hq').2
      · rw [hp, hq']
  · intro hq hqa
    unfold dbInsertPrescription
    rw [if_pos]
    exact List.any_eq_true.mpr ⟨q, hq, by simp [hqa]⟩
  · intro u payload now fid parseDate
    unfold create_prescription
    rw [create_kwargs_rejected]
    by_cases hrole : u.role ∈ [Role.doctor, Role.nurse, Role.super_admin, Role.clinician_admin]
    · simp [hrole, HttpResult.state]
    · simp [hrole, HttpResult.state]

/-- Witness for C3: in the concrete state holding `presc1` (for
appointment 5), inserting `presc2` (also appointment 5) is rejected. -/
theorem prescription_unique_per_appointment_witness :
    dbInsertPrescription stPresc presc2 = Except.error () := by
  have hinv : atMostOnePrescriptionPerAppointment stPresc := by
    intro p hp q hq hpq
    simp only [stPresc, List.mem_singleton] at hp hq
    rw [hp, hq]
  exact (prescription_unique_per_appointment stPresc presc2 presc1 hinv).2.1
    (by simp [stPresc]) rfl

/-! ## C4 -/

/-- C4: the `patient_id` attribute missing from `Prescription` breaks
the prescription endpoints: creation by any authorized role raises
`TypeError` in the constructor and ends as HTTP 500 with the state
unchanged (nothing persisted); the patient-role list query and the
patient-role single view raise `AttributeError` and end as HTTP 500
instead of returning the patient's prescriptions. -/
theorem prescription_patient_id_breakage
    (st : ServerState) (u : User) :
    (u.role ∈ [Role.doctor, Role.nurse, Role.super_admin, Role.clinician_admin] →
      ∀ payload now fid parseDate,
        create_prescription st u payload now fid parseDate = HttpResult.err st 500) ∧
    (u.role = Role.patient →
      ∀ sf, list_prescriptions st u sf = Except.error 500) ∧
    (u.role = Role.patient →
      ∀ pid p, st.prescriptions.find? (fun q => q.id = pid) = some p →
        get_prescription st u pid = Except.error 500) := by
  refine ⟨?_, ?_, ?_⟩
  · intro hrole payload now fid parseDate
    unfold create_prescription
    rw [create_kwargs_rejected]
    simp [hrole]
  · intro h sf
    simp [list_prescriptions, h]
  · intro h pid p hfind
    unfold get_prescription
    rw [hfind]
    have hattr : p.getAttrNat "patient_id" = none := by
      simp [Prescription.getAttrNat]
    rcases happ : st.appointments.find? (fun a => a.id = p.appointment_id) with _ | apt
    · simp [h, happ, hattr, prescription_to_response]
    · by_cases hpm : apt.patient_id ≠ u.id
      · simp [h, happ, hattr, hpm]
      · simp [h, happ, hattr, hpm, prescription_to_response]

/-- Witness for C4: at the concrete state `stPresc`, the doctor `uDoc`
cannot create a prescription (HTTP 500, state unchanged) and the patient
`uPat` can neither list nor view prescription 1 (HTTP 500). -/
theorem prescription_patient_id_breakage_witness :
    create_prescription stPresc uDoc
        { patient_id := 2, doctor_id := 4, medications := ["med"] } 50 9 (fun _ => none) =
      HttpResult.err stPresc 500 ∧
    list_prescriptions stPresc uPat none = Except.error 500 ∧
    get_prescription stPresc uPat 1 = Except.error 500 := by
  refine ⟨?_, ?_, ?_⟩
  · exact (prescription_patient_id_breakage stPresc uDoc).1 (by decide)
      { patient_id := 2, doctor_id := 4, medications := ["med"] } 50 9 (fun _ => none)
  · exact (prescription_patient_id_breakage stPresc uPat).2.1 rfl none
  · exact (prescription_patient_id_breakage stPresc uPat).2.2 rfl 1 presc1 rfl

/-! ## C5 -/

/-- C5: the creation path passes `status=PrescriptionStatus.PENDING` to
the constructor, and the update endpoint applies any submitted status
string to a prescription without inspecting its current status: there is
no enforcement of the pending → approved → fulfilled ordering. -/
theorem prescription_status_unconstrained
    (payload : PrescriptionCreateRequest) (now fid : Nat) (parseDate : String → Option Nat)
    (st : ServerState) (u : User)
    (hrole : u.role = Role.super_admin ∨ u.role = Role.clinician_admin)
    (pid : Nat) (p : Prescription)
    (hfind : st.prescriptions.find? (fun q => q.id = pid) = some p)
    (upd : PrescriptionUpdateRequest) (s : String) (hs : upd.status = some s) (now2 : Nat) :
    (create_prescription_row payload now fid parseDate).status =
      StatusAttr.enum PrescriptionStatus.pending ∧
    ∃ st' p', update_prescription st u pid upd now2 = HttpResult.ok st' p' ∧
      p'.status = StatusAttr.raw s := by
  constructor
  · rfl
  · have hnadm : ¬ (u.role ≠ Role.super_admin ∧ u.role ≠ Role.clinician_admin) := by
      rcases hrole with h | h <;> simp [h]
    unfold update_prescription
    rw [if_neg hnadm, hfind]
    rcases upd with ⟨pn, mj, ust, qr⟩
    simp only at hs
    subst hs
    refine ⟨_, _, rfl, ?_⟩
    rcases pn with _ | pnv <;> rcases mj with _ | mjv <;> rcases qr with _ | qrv <;>
      (dsimp only; split <;> rfl)

/-- Witness for C5: in the concrete state `stPresc`, the clinician_admin
`uCA` moves prescription 1 (currently pending) straight to the string
"fulfilled". -/
theorem prescription_status_unconstrained_witness :
    (create_prescription_row { patient_id := 2, doctor_id := 4, medications := ["med"] }
        50 9 (fun _ => none)).status = StatusAttr.enum PrescriptionStatus.pending ∧
    (update_prescription stPresc uCA 1 { status := some "fulfilled" } 60).isOk = true := by
  obtain ⟨h1, st', p', heq, hs⟩ := prescription_status_unconstrained
    { patient_id := 2, doctor_id := 4, medications := ["med"] } 50 9 (fun _ => none)
    stPresc uCA (Or.inr rfl) 1 presc1 rfl { status := some "fulfilled" } "fulfilled" rfl 60
  exact ⟨h1, by rw [heq]; rfl⟩

/-! ## C6 -/

/-- C6 counterexample: cancelling `apptOther` (status scheduled,
updated_at 10) at time 77 also rewrites `updated_at` — the column's
`onupdate=func.now()` fires on the UPDATE — so "every other field of the
appointment is unchanged" fails at this input. -/
theorem cancel_appointment_touches_updated_at :
    cancel_appointment stBase uPat2 5 (some "sick") 77 =
      HttpResult.ok
        { stBase with appointments :=
            [{ apptOther with
                status := AppointmentStatus.cancelled
                cancellation_reason := some "sick"
                updated_at := 77 }] }
        { apptOther with
          status := AppointmentStatus.cancelled
          cancellation_reason := some "sick"
          updated_at := 77 } ∧
    ({ apptOther with
       status := AppointmentStatus.cancelled
       cancellation_reason := some "sick"
       updated_at := 77 }).updated_at ≠
      apptOther.updated_at := by
  exact ⟨rfl, by decide⟩

/-- C6 as amended: cancelling an appointment sets its status to
cancelled, its cancellation_reason to the supplied reason and — through
the ORM's `onupdate` — refreshes `updated_at`; nothing else changes:
every other field of the row keeps its value, other appointment rows are
untouched, and every other table is unchanged (no refund logic, no
notification dispatch). -/
theorem cancel_appointment_frame
    (st : ServerState) (u : User) (aid : Nat) (reason : Option String) (now : Nat)
    (appt : Appointment)
    (hfind : st.appointments.find? (fun a => a.id = aid) = some appt)
    (hp : ¬ (u.role = Role.patient ∧ appt.patient_id ≠ u.id))
    (hc : ¬ (u.role = Role.clinician_admin ∧ appt.clinician_id ≠ u.id))
    (hch : ¬ (appt.status = AppointmentStatus.cancelled ∧ appt.cancellation_reason = reason)) :
    ∃ appt',
      cancel_appointment st u aid reason now =
        HttpResult.ok
          { st with appointments :=
              updateFirst (fun a => a.id = aid) (fun _ => appt') st.appointments }
          appt' ∧
      appt'.status = AppointmentStatus.cancelled ∧
      appt'.cancellation_reason = reason ∧
      appt'.updated_at = now ∧
      appt'.id = appt.id ∧
      appt'.patient_id = appt.patient_id ∧
      appt'.clinician_id = appt.clinician_id ∧
      appt'.visit_type = appt.visit_type ∧
      appt'.specialization = appt.specialization ∧
      appt'.scheduled_at = appt.scheduled_at ∧
      appt'.triage_notes = appt.triage_notes ∧
      appt'.cost = appt.cost ∧
      appt'.created_at = appt.created_at := by
  refine ⟨{ appt with
            status := AppointmentStatus.cancelled
            cancellation_reason := reason
            updated_at := now }, ?_,
    rfl, rfl, rfl, rfl, rfl, rfl, rfl, rfl, rfl, rfl, rfl, rfl⟩
  unfold cancel_appointment
  rw [hfind]
  dsimp only
  rw [if_neg hp, if_neg hc, if_neg hch]

/-- Witness for the amended C6: patient 2 cancels their scheduled
appointment 5 at time 77 and the handler answers 2xx. -/
theorem cancel_appointment_frame_witness :
    (cancel_appointment stBase uPat2 5 (some "sick") 77).isOk = true := by
  obtain ⟨appt', heq, -⟩ := cancel_appointment_frame stBase uPat2 5 (some "sick") 77
    apptOther rfl (by decide) (by decide) (by decide)
  rw [heq]
  rfl

/-! ## C10 -/

/-- C10 counterexample: patient 2 reschedules their own appointment 5;
the claim predicts a success response, but the handler fails with
HTTP 500 (reading `payload.date` raises `AttributeError`) and the state
is untouched. -/
theorem reschedule_reports_error_not_success :
    reschedule_appointment stBase uPat2 5 { scheduled_at := some 999 } 77 =
      HttpResult.err stBase 500 := by
  rfl

/-- C10 as amended: for every reschedule request by a patient for their
own existing appointment, the handler fails with HTTP 500 — it reads
`payload.date`, and `AppointmentRescheduleRequest` declares only
`scheduled_at`, so pydantic raises `AttributeError` before any
assignment — and the persisted appointment, `scheduled_at` and
`updated_at` included, is entirely unchanged. -/
theorem reschedule_own_appointment_fails
    (st : ServerState) (u : User) (aid : Nat) (payload : AppointmentRescheduleRequest)
    (now : Nat) (appt : Appointment)
    (hrole : u.role = Role.patient)
    (hfind : st.appointments.find? (fun a => a.id = aid) = some appt)
    (hown : appt.patient_id = u.id) :
    reschedule_appointment st u aid payload now = HttpResult.err st 500 := by
  unfold reschedule_appointment
  rw [hfind]
  simp [hrole, hown, AppointmentRescheduleRequest.getAttr]

/-- Witness for the amended C10: patient 2, own appointment 5. -/
theorem reschedule_own_appointment_fails_witness :
    reschedule_appointment stBase uPat2 5 { scheduled_at := some 500 } 88 =
      HttpResult.err stBase 500 :=
  reschedule_own_appointment_fails stBase uPat2 5 { scheduled_at := some 500 } 88
    apptOther rfl rfl rfl

/-! ## C7 -/

/-- C7 counterexample: with a code stored at time 0, a reset attempt at
time 3600 — the code is exactly one hour old, so not "less than one hour
old" — nevertheless succeeds and changes the password: the code only
rejects ages strictly greater than one hour. -/
theorem reset_code_accepted_at_exactly_one_hour :
    reset_password_with_code (fun _ => "NEWHASH") stCode "pat@clinic.test" "123456" "npw" 3600 =
      HttpResult.ok
        { stCode with
          users := [{ uPat with password_hash := "NEWHASH" }, uPat2, uStaff3]
          verification_codes := []
          activity_logs := [{ user_id := 1, action := "Password Reset"
                              device := some "Web Application", timestamp := 3600 }] } () ∧
    alistFind "pat@clinic.test" stCode.verification_codes =
      some { code := "123456", timestamp := 0, user_id := 1, purpose := "password_reset" } ∧
    ¬ ((3600 : Nat) - 0 < 3600) := by
  exact ⟨rfl, rfl, by decide⟩

/-- C7 as amended: reset codes live only in the process-local
`verification_codes` mapping; forgot-password stores a fresh 6-digit code
with a timestamp for an existing user (404 otherwise, nothing stored);
reset-password-with-code changes the password exactly when a code is
stored for the email, equals the submitted code, and is at most one hour
old (ages strictly beyond one hour are rejected, dropping the entry) —
otherwise HTTP 400 (or 404 when the stored user no longer exists) with
the password unchanged; a successful reset removes the code. -/
theorem password_reset_code_flow
    (hashFn : String → String) (st : ServerState) (email code new_password : String)
    (now : Nat) (digits : Fin 6 → Fin 10) :
    (st.users.find? (fun v => v.email = email) = none →
      forgot_password st email digits now = HttpResult.err st 404) ∧
    (∀ user, st.users.find? (fun v => v.email = email) = some user →
      forgot_password st email digits now =
        HttpResult.ok
          { st with verification_codes :=
              (alistSet email
                { code := generate_verification_code digits
                  timestamp := now
                  user_id := user.id
                  purpose := "password_reset" }
                st.verification_codes) } ()) ∧
    ((generate_verification_code digits).length = 6 ∧
      ∀ c ∈ (generate_verification_code digits).data, c.isDigit = true) ∧
    (alistFind email st.verification_codes = none →
      reset_password_with_code hashFn st email code new_password now = HttpResult.err st 400) ∧
    (∀ stored, alistFind email st.verification_codes = some stored → stored.code ≠ code →
      reset_password_with_code hashFn st email code new_password now = HttpResult.err st 400) ∧
    (∀ stored, alistFind email st.verification_codes = some stored → stored.code = code →
      3600 < now - stored.timestamp →
      reset_password_with_code hashFn st email code new_password now =
        HttpResult.err { st with verification_codes := alistDel email st.verification_codes } 400) ∧
    (∀ stored, alistFind email st.verification_codes = some stored → stored.code = code →
      now - stored.timestamp ≤ 3600 →
      st.users.find? (fun v => v.id = stored.user_id) = none →
      reset_password_with_code hashFn st email code new_password now = HttpResult.err st 404) ∧
    (∀ stored user, alistFind email st.verification_codes = some stored → stored.code = code →
      now - stored.timestamp ≤ 3600 →
      st.users.find? (fun v => v.id = stored.user_id) = some user →
      reset_password_with_code hashFn st email code new_password now =
        HttpResult.ok
          { st with
            users := updateFirst (fun v => v.id = stored.user_id)
              (fun _ => { user with password_hash := hashFn new_password }) st.users
            verification_codes := alistDel email st.verification_codes
            activity_logs := st.activity_logs ++
              [{ user_id := user.id, action := "Password Reset"
                 device := some "Web Application", timestamp := now }] } ()) := by
  refine ⟨?_, ?_, ⟨?_, ?_⟩, ?_, ?_, ?_, ?_, ?_⟩
  · intro h
    unfold forgot_password
    rw [h]
  · intro user h
    unfold forgot_password
    rw [h]
  · simp [generate_verification_code]
  · intro c hc
    simp only [generate_verification_code, List.mem_map] at hc
    obtain ⟨i, _, rfl⟩ := hc
    have : (digits i).val < 10 := (digits i).isLt
    unfold Char.isDigit
    interval_cases h : (digits i).val <;> decide
  · intro h
    unfold reset_password_with_code
    rw [h]
  · intro stored h hne
    unfold reset_password_with_code
    rw [h]
    dsimp only
    rw [if_pos hne]
  · intro stored h heq hexp
    unfold reset_password_with_code
    rw [h]
    dsimp only
    rw [if_neg (by simpa using heq), if_pos hexp]
  · intro stored h heq hfresh hnone
    unfold reset_password_with_code
    rw [h]
    dsimp only
    rw [if_neg (by simpa using heq), if_neg (by omega), hnone]
  · intro stored user h heq hfresh huser
    unfold reset_password_with_code
    rw [h]
    dsimp only
    rw [if_neg (by simpa using heq), if_neg (by omega), huser]

/-- Witness for the amended C7: at `stCode`, forgot-password stores a
code for patient 2 and a fresh reset (30 minutes after issue) succeeds
for patient 1. -/
theorem password_reset_code_flow_witness :
    forgot_password stCode "p2@clinic.test" (fun _ => (7 : Fin 10)) 50 =
      HttpResult.ok
        { stCode with verification_codes :=
            (alistSet "p2@clinic.test"
              { code := generate_verification_code (fun _ => (7 : Fin 10))
                timestamp := 50
                user_id := 2
                purpose := "password_reset" }
              stCode.verification_codes) } () ∧
    reset_password_with_code (fun _ => "NEWHASH") stCode "pat@clinic.test" "123456" "npw" 1800 =
      HttpResult.ok
        { stCode with
          users := updateFirst (fun v => v.id = 1)
            (fun _ => { uPat with password_hash := "NEWHASH" }) stCode.users
          verification_codes := alistDel "pat@clinic.test" stCode.verification_codes
          activity_logs := stCode.activity_logs ++
            [{ user_id := 1, action := "Password Reset"
               device := some "Web Application", timestamp := 1800 }] } () := by
  constructor
  · exact (password_reset_code_flow (fun _ => "NEWHASH") stCode "p2@clinic.test" "x" "y" 50
      (fun _ => (7 : Fin 10))).2.1 uPat2 rfl
  · exact (password_reset_code_flow (fun _ => "NEWHASH") stCode "pat@clinic.test" "123456"
      "npw" 1800 (fun _ => (7 : Fin 10))).2.2.2.2.2.2.2
      { code := "123456", timestamp := 0, user_id := 1, purpose := "password_reset" }
      uPat rfl rfl (by decide) rfl

/-! ## C8 -/

/-- C8: registration stores `hashFn password` (the bcrypt hash) as the
credential of a patient-role user; login succeeds — returning a bearer
token with `expires_in = 3600` whose claims expire one hour after
issuance — exactly when the submitted password verifies against the
stored hash; a non-verifying password yields HTTP 401 and an unknown
email HTTP 404. -/
theorem register_login_auth
    (hashFn : String → String) (verifyFn : String → String → Bool)
    (parseIso : String → Option Nat)
    (st : ServerState) (payload : CreateUserRequest) (fresh_id : Nat)
    (email password : String) (now : Nat) :
    (st.users.find? (fun v => v.email = payload.email) = none →
      payload.date_of_birth = none →
      ∃ u, register_customer hashFn parseIso st payload fresh_id =
          HttpResult.ok { st with users := st.users ++ [u] } u ∧
        u.password_hash = hashFn payload.password ∧
        u.role = Role.patient ∧ u.email = payload.email) ∧
    (∀ user, st.users.find? (fun v => v.email = email) = some user →
      ((login verifyFn st email password now).isOk = true ↔
        verifyFn password user.password_hash = true)) ∧
    (∀ user, st.users.find? (fun v => v.email = email) = some user →
      verifyFn password user.password_hash = true →
      login verifyFn st email password now =
        HttpResult.ok
          { st with activity_logs := st.activity_logs ++
              [{ user_id := user.id, action := "Login"
                 device := some "Web Application", timestamp := now }] }
          { access_token :=
              { sub := user.full_name, id := user.id, role := user.role.value
                exp := now + 3600 }
            token_type := "bearer", expires_in := 3600 }) ∧
    (∀ user, st.users.find? (fun v => v.email = email) = some user →
      verifyFn password user.password_hash = false →
      login verifyFn st email password now = HttpResult.err st 401) ∧
    (st.users.find? (fun v => v.email = email) = none →
      login verifyFn st email password now = HttpResult.err st 404) := by
  refine ⟨?_, ?_, ?_, ?_, ?_⟩
  · intro hmail hdob
    unfold register_customer
    rw [hmail, hdob]
    exact ⟨_, rfl, rfl, rfl, rfl⟩
  · intro user hfind
    by_cases hv : verifyFn password user.password_hash = true
    · simp only [hv, iff_true]
      simp [login, authenticate_user, hfind, hv, HttpResult.isOk]
    · rw [Bool.not_eq_true] at hv
      simp only [hv, Bool.false_eq_true, iff_false, Bool.not_eq_true]
      simp [login, authenticate_user, hfind, hv, HttpResult.isOk]
  · intro user hfind hv
    unfold login authenticate_user
    rw [hfind]
    simp [hv, create_access_token]
  · intro user hfind hv
    unfold login authenticate_user
    rw [hfind]
    simp [hv]
  · intro hmail
    unfold login authenticate_user
    rw [hmail]

/-- Witness for C8: register a fresh user on `stBase` with a concrete
hash function, then log `uPat` in with the right and the wrong password
and an unknown email. -/
theorem register_login_auth_witness :
    (register_customer (fun s => String.append s "#h") (fun _ => none) stBase
        { full_name := "New User", email := "new@clinic.test", password := "pw123456" }
        9).isOk = true ∧
    login (fun p h => p == h) stBase "pat@clinic.test" "h1" 40 =
      HttpResult.ok
        { stBase with activity_logs := stBase.activity_logs ++
            [{ user_id := 1, action := "Login"
               device := some "Web Application", timestamp := 40 }] }
        { access_token :=
            { sub := "Pat One", id := 1, role := "patient", exp := 40 + 3600 }
          token_type := "bearer", expires_in := 3600 } ∧
    login (fun p h => p == h) stBase "pat@clinic.test" "wrong" 40 = HttpResult.err stBase 401 ∧
    login (fun p h => p == h) stBase "ghost@clinic.test" "pw" 40 = HttpResult.err stBase 404 := by
  refine ⟨?_, ?_, ?_, ?_⟩
  · obtain ⟨u, hequ, -⟩ := (register_login_auth (fun s => String.append s "#h")
      (fun p h => p == h) (fun _ => none) stBase
      { full_name := "New User", email := "new@clinic.test", password := "pw123456" } 9
      "x" "y" 0).1 rfl rfl
    rw [hequ]
    rfl
  · exact (register_login_auth (fun s => String.append s "#h") (fun p h => p == h)
      (fun _ => none) stBase
      { full_name := "New User", email := "new@clinic.test", password := "pw123456" } 9
      "pat@clinic.test" "h1" 40).2.2.1 uPat rfl (by decide)
  · exact (register_login_auth (fun s => String.append s "#h") (fun p h => p == h)
      (fun _ => none) stBase
      { full_name := "New User", email := "new@clinic.test", password := "pw123456" } 9
      "pat@clinic.test" "wrong" 40).2.2.2.1 uPat rfl (by decide)
  · exact (register_login_auth (fun s => String.append s "#h") (fun p h => p == h)
      (fun _ => none) stBase
      { full_name := "New User", email := "new@clinic.test", password := "pw123456" } 9
      "ghost@clinic.test" "pw" 40).2.2.2.2 rfl

/-! ## C9 -/

/-- C9: the mental-health score is the claimed weighted aggregation:
starting from 50, the game-type averages are added onto focus with
weights 0.3, 0.2, 0.2, 0.3 (capped at 100 at each step); the focus-game
average times 0.2 and the mood-entry anxiety average times 5 are
subtracted from stress (floored at 0 at each step); with mood entries
present, mood is 10 times the mood average, anxiety is 100 minus 10
times the anxiety average, and 3 times the energy average is added to
focus (capped at 100); the endpoint's overall value is the rounded mean
of the four unrounded sub-scores and its sub-scores are their roundings. -/
theorem mental_health_score_formula
    (moods : List MoodEntry) (games : List GameResult)
    (hmem : games.filter (fun r => r.game = "memory") ≠ [])
    (hrea : games.filter (fun r => r.game = "reaction") ≠ [])
    (hcol : games.filter (fun r => r.game = "color") ≠ [])
    (hfoc : games.filter (fun r => r.game = "focus") ≠ [])
    (hmo : moods ≠ []) :
    (calculate_scores moods games).focus =
      min 100 (min 100 (min 100 (min 100 (min 100
        (50 + listAvg ((games.filter (fun r => r.game = "memory")).map (fun r => r.score))
          * (3/10))
        + listAvg ((games.filter (fun r => r.game = "reaction")).map (fun r => r.score))
          * (2/10))
        + listAvg ((games.filter (fun r => r.game = "color")).map (fun r => r.score))
          * (2/10))
        + listAvg ((games.filter (fun r => r.game = "focus")).map (fun r => r.score))
          * (3/10))
        + listAvg (moods.map (fun m => m.energy)) * 3) ∧
    (calculate_scores moods games).stress =
      max 0 (max 0
        (50 - listAvg ((games.filter (fun r => r.game = "focus")).map (fun r => r.score))
          * (2/10))
        - listAvg (moods.map (fun m => m.anxiety)) * 5) ∧
    (calculate_scores moods games).mood = listAvg (moods.map (fun m => m.mood)) * 10 ∧
    (calculate_scores moods games).anxiety =
      100 - listAvg (moods.map (fun m => m.anxiety)) * 10 ∧
    (∀ st : ServerState, ∀ u : User, ∀ now : Nat, ∃ s : RawScores,
      s = calculate_scores
        (((st.mood_entries.filter (fun m => m.user_id = u.id)).mergeSort
          (fun a b => decide (b.date ≤ a.date))).take 30)
        (((st.game_results.filter (fun g => g.user_id = u.id)).mergeSort
          (fun a b => decide (b.timestamp ≤ a.timestamp))).take 50) ∧
      (get_mental_health_score st u now).overall =
        pythonRound ((s.focus + s.stress + s.mood + s.anxiety) / 4) ∧
      (get_mental_health_score st u now).focus = pythonRound s.focus ∧
      (get_mental_health_score st u now).stress = pythonRound s.stress ∧
      (get_mental_health_score st u now).mood = pythonRound s.mood ∧
      (get_mental_health_score st u now).anxiety = pythonRound s.anxiety) := by
  refine ⟨?_, ?_, ?_, ?_, ?_⟩
  · simp [calculate_scores, hmem, hrea, hcol, hfoc, hmo]
  · simp [calculate_scores, hfoc, hmo]
  · simp [calculate_scores, hmo]
  · simp [calculate_scores, hmo]
  · intro st u now
    exact ⟨_, rfl, rfl, rfl, rfl, rfl, rfl⟩

/-- Witness for C9 at one mood entry (mood 8, energy 6, anxiety 2) and
one game result per type (scores 80, 60, 40, 100). -/
theorem mental_health_score_formula_witness :
    (calculate_scores moodsW gamesW).focus =
      min 100 (min 100 (min 100 (min 100 (min 100
        (50 + listAvg ((gamesW.filter (fun r => r.game = "memory")).map (fun r => r.score))
          * (3/10))
        + listAvg ((gamesW.filter (fun r => r.game = "reaction")).map (fun r => r.score))
          * (2/10))
        + listAvg ((gamesW.filter (fun r => r.game = "color")).map (fun r => r.score))
          * (2/10))
        + listAvg ((gamesW.filter (fun r => r.game = "focus")).map (fun r => r.score))
          * (3/10))
        + listAvg (moodsW.map (fun m => m.energy)) * 3) ∧
    (calculate_scores moodsW gamesW).stress =
      max 0 (max 0
        (50 - listAvg ((gamesW.filter (fun r => r.game = "focus")).map (fun r => r.score))
          * (2/10))
        - listAvg (moodsW.map (fun m => m.anxiety)) * 5) ∧
    (calculate_scores moodsW gamesW).mood = listAvg (moodsW.map (fun m => m.mood)) * 10 ∧
    (calculate_scores moodsW gamesW).anxiety =
      100 - listAvg (moodsW.map (fun m => m.anxiety)) * 10 := by
  have h := mental_health_score_formula moodsW gamesW (by decide) (by decide) (by decide)
    (by decide) (by decide)
  exact ⟨h.1, h.2.1, h.2.2.1, h.2.2.2.1⟩

end Clinic
